import Mathlib

/-!
Verification of the powertracker websocket client (`cmd/client/client.go`).

The Go code is shallowly embedded:
* `float64` values carried by the protocol are modelled as rationals (`ℚ`);
  the claims under study are about the *structure* of the arithmetic
  (which sums are formed, what the divisor is), not about rounding.
* Instants (`time.Time`) are modelled as integer nanoseconds since the Unix
  epoch; a session's local zone is a fixed UTC offset in seconds.  Go's
  `Truncate(24h)` rounds absolute time down to a multiple of 24h since the
  zero time (which is midnight-aligned with the Unix epoch), and
  `Format("2006-01-02T15:04:05.000Z")` renders the *local* wall clock of the
  instant with a literal `Z` appended; both are embedded below on the
  proleptic Gregorian calendar.
* External effects (websocket dial, reads, writes, the configuration store)
  are environments passed explicitly; each read/write may fail, mirroring the
  `error` returns in the Go code.  A Go runtime panic (out-of-range slice
  index, `make` with negative length) is a distinct outcome `GoResult.panicked`.
-/

/-- Outcome of running a piece of Go code: a normal value, a returned
`error`, or a runtime panic. -/
inductive GoResult (α : Type) where
  | ok (a : α)
  | goError (msg : String)
  | panicked
  deriving DecidableEq

/-- One hourly bucket of the statistics response
(`{change, start, end}` in `APIResponse.Result`). -/
structure Bucket where
  change : ℚ
  bktStart : Int
  bktEnd : Int
  deriving DecidableEq, Inhabited

/-- Structure `APIResponse` from client.go.  The Go field `Result` is a
`map[string][]…`; indexing a missing key yields the zero value (nil slice),
so it is embedded as a total function defaulting to `[]`. -/
structure APIResponse where
  id : Int
  respType : String
  success : Bool
  result : String → List Bucket
  errCode : String
  errMessage : String

/-- The outbound `recorder/statistics_during_period` message built in
`getResults` (client.go lines 251-262). -/
structure StatsRequest where
  id : Nat
  reqType : String
  startTime : String
  endTime : String
  statisticIds : List String
  period : String
  reqTypes : List String
  unitsEnergy : String
  deriving DecidableEq, Inhabited

/-- External collaborators of the collection loop: the outcome of the i-th
`c.write(msg)` call and of the i-th `c.Conn.ReadJSON(&data)` call. -/
structure CollectEnv where
  writeResults : Nat → Except String Unit
  responses : Nat → Except String APIResponse

/-- The parts of Go's `url.URL` that `Connect` touches.  `rawQuery` is the
query string; `url.URL.String()` re-attaches it after the path. -/
structure URL where
  scheme : String
  host : String
  path : String
  rawQuery : String
  deriving DecidableEq, Inhabited

/-- An established websocket connection (opaque token). -/
structure Conn where
  connId : Nat
  deriving DecidableEq, Inhabited

/-- The decoded authentication response (`authResp` map in `Connect`):
its `type` tag and `message` field. -/
structure AuthResp where
  msgType : String
  message : String
  deriving DecidableEq, Inhabited

/-- Network I/O events performed by `Connect`, in order. -/
inductive NetEvent where
  | dialed (u : URL)
  | readInit
  | wroteAuth
  | readAuthResp
  deriving DecidableEq

/-- External collaborators of `Connect`: the configured url string (viper),
the result of `url.Parse`, and the outcomes of the dial and of each
read/write on the fresh connection. -/
structure ConnectEnv where
  urlString : String
  parseResult : Except String URL
  dialResult : URL → Except String Conn
  initMsgResult : Conn → Except String Unit
  authWriteResult : Conn → Except String Unit
  authRespResult : Conn → Except String AuthResp

/-- Structure `Config` from client.go.  `Days` is a Go `int`. -/
structure Config where
  days : Int
  output : String
  filePath : String
  insecure : Bool

/-- Structure `Client` from client.go. -/
structure Client where
  config : Config
  conn : Option Conn
  messageID : Nat

/-- Constant `hoursInADay` from client.go. -/
def hoursInADay : Nat := 24

/-- 24 hours in nanoseconds, the truncation unit used by `getResults`. -/
def dayNs : Int := 86400 * 1000000000

/-- Go `Time.Truncate(24 * time.Hour)`: round down to a multiple of 24h of
absolute time.  Go's zero time (Jan 1, year 1, 00:00 UTC) is a whole number
of days before the Unix epoch, so this is floor-truncation to the UTC
midnight in epoch nanoseconds. -/
def truncDay (t : Int) : Int := (Int.fdiv t dayNs) * dayNs

/-- Days since 1970-01-01 to proleptic Gregorian (year, month, day);
the civil calendar underlying Go's date formatting. -/
def civilFromDays (z : Int) : Int × Int × Int :=
  let z1 := z + 719468
  let era := Int.fdiv z1 146097
  let doe := z1 - era * 146097
  let yoe := Int.fdiv (doe - Int.fdiv doe 1460 + Int.fdiv doe 36524 - Int.fdiv doe 146096) 365
  let y := yoe + era * 400
  let doy := doe - (365 * yoe + Int.fdiv yoe 4 - Int.fdiv yoe 100)
  let mp := Int.fdiv (5 * doy + 2) 153
  let d := doy - Int.fdiv (153 * mp + 2) 5 + 1
  let m := if mp < 10 then mp + 3 else mp - 9
  (if m ≤ 2 then y + 1 else y, m, d)

/-- Left-pad a decimal numeral with zeros to width `w`. -/
def padNum (w : Nat) (n : Nat) : String :=
  let s := Nat.repr n
  String.mk (List.replicate (w - s.length) '0') ++ s

/-- Go `t.Format("2006-01-02T15:04:05.000Z")` for the instant `t`
(epoch nanoseconds) in a zone at fixed offset `off` seconds: the *local*
wall-clock fields are rendered with millisecond precision and a literal
`Z` is appended (in this layout `Z` is not a zone specifier). -/
def goFormatZ (off : Int) (t : Int) : String :=
  let wall := t + off * 1000000000
  let z := Int.fdiv wall dayNs
  let rem := (wall - z * dayNs).toNat
  let ymd := civilFromDays z
  let hh := rem / 3600000000000
  let mi := rem / 60000000000 % 60
  let ss := rem / 1000000000 % 60
  let ms := rem / 1000000 % 1000
  padNum 4 ymd.1.toNat ++ "-" ++ padNum 2 ymd.2.1.toNat ++ "-" ++
    padNum 2 ymd.2.2.toNat ++ "T" ++ padNum 2 hh ++ ":" ++ padNum 2 mi ++
    ":" ++ padNum 2 ss ++ "." ++ padNum 3 ms ++ "Z"

/-- Modelled from the spec: the canonical "UTC-normalized ISO 8601" rendering
with millisecond precision of an instant, i.e. the string with trailing `Z`
that denotes the instant converted to UTC.  Used to compare against what the
code actually emits. -/
def specUTCISO8601ms (t : Int) : String :=
  let z := Int.fdiv t dayNs
  let rem := (t - z * dayNs).toNat
  let ymd := civilFromDays z
  let hh := rem / 3600000000000
  let mi := rem / 60000000000 % 60
  let ss := rem / 1000000000 % 60
  let ms := rem / 1000000 % 1000
  padNum 4 ymd.1.toNat ++ "-" ++ padNum 2 ymd.2.1.toNat ++ "-" ++
    padNum 2 ymd.2.2.toNat ++ "T" ++ padNum 2 hh ++ ":" ++ padNum 2 mi ++
    ":" ++ padNum 2 ss ++ "." ++ padNum 3 ms ++ "Z"

/-- The dial-URL rewrite in `Connect` (client.go lines 69-78): scheme
`http`→`ws`, `https`→`wss`, anything else kept; the path is overwritten with
`/api/websocket`.  No other field of the parsed URL is assigned. -/
def rewriteDialURL (u : URL) : URL :=
  let s := if u.scheme = "http" then "ws"
           else if u.scheme = "https" then "wss"
           else u.scheme
  { u with scheme := s, path := "/api/websocket" }

/-- Function `Connect` from client.go: returns the updated client, the network events
performed in order, and the Go return value. -/
def Connect (c : Client) (env : ConnectEnv) :
    Client × List NetEvent × Except String Unit :=
  let c1 : Client := { c with messageID := 1 }
  if env.urlString = "" then (c1, [], .error "url is required")
  else
    match env.parseResult with
    | .error e => (c1, [], .error e)
    | .ok u =>
      let dialURL := rewriteDialURL u
      match env.dialResult dialURL with
      | .error e => (c1, [.dialed dialURL], .error ("dial: " ++ e))
      | .ok conn =>
        match env.initMsgResult conn with
        | .error e =>
          (c1, [.dialed dialURL, .readInit], .error ("initial message: " ++ e))
        | .ok _ =>
          match env.authWriteResult conn with
          | .error e =>
            (c1, [.dialed dialURL, .readInit, .wroteAuth],
             .error ("auth message: " ++ e))
          | .ok _ =>
            match env.authRespResult conn with
            | .error e =>
              (c1, [.dialed dialURL, .readInit, .wroteAuth, .readAuthResp],
               .error ("auth response: " ++ e))
            | .ok resp =>
              if resp.msgType = "auth_ok" then
                ({ c1 with conn := some conn },
                 [.dialed dialURL, .readInit, .wroteAuth, .readAuthResp],
                 .ok ())
              else
                (c1, [.dialed dialURL, .readInit, .wroteAuth, .readAuthResp],
                 .error ("authentication failed: " ++ resp.message))

/-- The extraction loop `for j := range changeSlice` in `getResults`
(client.go lines 280-283): reads `buckets[j].Change` for `j = 0..23`.
When fewer than 24 buckets are present Go panics with an out-of-range
index; `none` models that panic. -/
def extractChanges (buckets : List Bucket) : Option (List ℚ) :=
  if hoursInADay ≤ buckets.length then
    some ((buckets.take hoursInADay).map Bucket.change)
  else none

/-- The per-day loop of `getResults` (client.go lines 245-285), with the
remaining iteration count as fuel, the current `c.MessageID` in `mid` and
the current row index in `i`.  Returns the statistics requests built (in
order) and the Go outcome. -/
def getResultsAux (env : CollectEnv) (sensorID : String) (now off : Int) :
    Nat → Nat → Nat → List StatsRequest × GoResult (List (List ℚ))
  | _mid, _i, 0 => ([], .ok [])
  | mid, i, n + 1 =>
    let mid1 := mid + 1
    let req : StatsRequest :=
      { id := mid1
        reqType := "recorder/statistics_during_period"
        startTime := goFormatZ off (truncDay (now - ((i : Int) + 1) * dayNs))
        endTime := goFormatZ off (truncDay now)
        statisticIds := [sensorID]
        period := "hour"
        reqTypes := ["change"]
        unitsEnergy := "kWh" }
    match env.writeResults i with
    | .error e => ([req], .goError ("writing to websocket: " ++ e))
    | .ok _ =>
      match env.responses i with
      | .error e => ([req], .goError ("reading from websocket: " ++ e))
      | .ok data =>
        if data.success = false then
          ([req], .goError ("api response error: \x7b" ++ data.errCode ++
            " " ++ data.errMessage ++ "\x7d"))
        else if (data.result sensorID).length = 0 then
          ([req], .goError ("no results returned - is your sensorID \x27" ++
            sensorID ++ "\x27 correct?"))
        else
          match extractChanges (data.result sensorID) with
          | none => ([req], .panicked)
          | some row =>
            let rest := getResultsAux env sensorID now off mid1 (i + 1) n
            (req :: rest.1,
             match rest.2 with
             | .ok rows => .ok (row :: rows)
             | r => r)

/-- Function `getResults` from client.go.  `days` is `c.Config.Days` (a Go `int`:
`make` with a negative length panics), `mid0` is the client's `MessageID`
on entry, `now` the current instant and `off` the local zone offset. -/
def getResults (days : Int) (mid0 : Nat) (sensorID : String)
    (env : CollectEnv) (now off : Int) :
    List StatsRequest × GoResult (List (List ℚ)) :=
  if days < 0 then ([], .panicked)
  else if sensorID = "" then ([], .goError "sensor_id is required")
  else getResultsAux env sensorID now off mid0 0 days.toNat

/-- The averaging step of `ComputePowerStats` (client.go lines 134-141):
`averages[i] = (Σ over rows j of results[j][i]) / float64(c.Config.Days)`.
Rows produced by `getResults` all have length 24, so `getD _ 0` reads the
actual entry wherever the Go indexing is in bounds. -/
def computeAverages (results : List (List ℚ)) (days : Int) : List ℚ :=
  (List.range hoursInADay).map (fun i =>
    (results.map (fun row => row.getD i 0)).sum / (days : ℚ))

/-- Fixture: a response carrying 24 one-kWh buckets for sensor `"s"`. -/
def goodResp : APIResponse :=
  { id := 2
    respType := "result"
    success := true
    result := fun sid =>
      if sid = "s" then List.replicate 24 { change := 1, bktStart := 0, bktEnd := 0 }
      else []
    errCode := ""
    errMessage := "" }

/-- Fixture: a collection environment where every exchange succeeds with
`goodResp`. -/
def goodEnv : CollectEnv :=
  { writeResults := fun _ => .ok ()
    responses := fun _ => .ok goodResp }

/-- Fixture: a successful response with only 5 buckets for sensor `"s"`. -/
def shortResp : APIResponse :=
  { id := 2
    respType := "result"
    success := true
    result := fun sid =>
      if sid = "s" then List.replicate 5 { change := 1, bktStart := 0, bktEnd := 0 }
      else []
    errCode := ""
    errMessage := "" }

/-- Fixture: a collection environment answering with `shortResp`. -/
def shortEnv : CollectEnv :=
  { writeResults := fun _ => .ok ()
    responses := fun _ => .ok shortResp }

/-- Fixture: a successful response with an empty bucket list. -/
def emptyResp : APIResponse :=
  { id := 2
    respType := "result"
    success := true
    result := fun _ => []
    errCode := ""
    errMessage := "" }

/-- Fixture: a collection environment answering with `emptyResp`. -/
def emptyEnv : CollectEnv :=
  { writeResults := fun _ => .ok ()
    responses := fun _ => .ok emptyResp }

/-- Fixture: a parsed http URL carrying a user path and query. -/
def httpURL : URL :=
  { scheme := "http", host := "example.com", path := "/p", rawQuery := "a=1" }

/-- Fixture: a connect environment where the whole handshake succeeds. -/
def okAuthEnv : ConnectEnv :=
  { urlString := "http://example.com/p?a=1"
    parseResult := .ok httpURL
    dialResult := fun _ => .ok { connId := 7 }
    initMsgResult := fun _ => .ok ()
    authWriteResult := fun _ => .ok ()
    authRespResult := fun _ => .ok { msgType := "auth_ok", message := "" } }

/-- Fixture: a connect environment whose auth response is not `auth_ok`. -/
def badAuthEnv : ConnectEnv :=
  { urlString := "http://example.com/p?a=1"
    parseResult := .ok httpURL
    dialResult := fun _ => .ok { connId := 7 }
    initMsgResult := fun _ => .ok ()
    authWriteResult := fun _ => .ok ()
    authRespResult := fun _ => .ok { msgType := "auth_invalid", message := "bad token" } }

/-- Fixture: a connect environment with an empty configured url. -/
def emptyURLEnv : ConnectEnv :=
  { urlString := ""
    parseResult := .error "unused"
    dialResult := fun _ => .error "unused"
    initMsgResult := fun _ => .error "unused"
    authWriteResult := fun _ => .error "unused"
    authRespResult := fun _ => .error "unused" }

/-- Fixture: a client as built by `New` with days = 1, except that
`messageID` starts at a junk value to exercise the reset in `Connect`. -/
def clientFixture : Client :=
  { config := { days := 1, output := "table", filePath := "results.csv", insecure := false }
    conn := none
    messageID := 5 }

theorem extractChanges_length {l : List Bucket} {row : List ℚ}
    (h : extractChanges l = some row) : row.length = hoursInADay := by
  unfold extractChanges at h
  split at h
  · next hle =>
    simp only [Option.some.injEq] at h
    subst h
    simp [List.length_take, Nat.min_eq_left hle]
  · exact absurd h (by simp)

theorem goFormatZ_zero (t : Int) : goFormatZ 0 t = specUTCISO8601ms t := by
  simp [goFormatZ, specUTCISO8601ms]

theorem getResultsAux_trace (env : CollectEnv) (sensorID : String)
    (now off : Int) :
    ∀ (n mid i k : Nat),
    k < ((getResultsAux env sensorID now off mid i n).1).length →
    ((getResultsAux env sensorID now off mid i n).1).get? k =
      some
      { id := mid + k + 1
        reqType := "recorder/statistics_during_period"
        startTime := goFormatZ off (truncDay (now - (((i + k : Nat) : Int) + 1) * dayNs))
        endTime := goFormatZ off (truncDay now)
        statisticIds := [sensorID]
        period := "hour"
        reqTypes := ["change"]
        unitsEnergy := "kWh" } := by
  intro n
  induction n with
  | zero =>
    intro mid i k hk
    simp [getResultsAux] at hk
  | succ n ih =>
    intro mid i k
    simp only [getResultsAux]
    split
    · intro hk
      cases k with
      | zero => simp
      | succ k => simp at hk
    · split
      · intro hk
        cases k with
        | zero => simp
        | succ k => simp at hk
      · split
        · intro hk
          cases k with
          | zero => simp
          | succ k => simp at hk
        · split
          · intro hk
            cases k with
            | zero => simp
            | succ k => simp at hk
          · split
            · intro hk
              cases k with
              | zero => simp
              | succ k => simp at hk
            · intro hk
              cases k with
              | zero => simp
              | succ k =>
                simp only [List.length_cons, Nat.succ_lt_succ_iff] at hk
                simp only [List.get?_cons_succ]
                rw [ih (mid + 1) (i + 1) k hk]
                have h1 : mid + 1 + k + 1 = mid + (k + 1) + 1 := by omega
                have h2 : i + 1 + k = i + (k + 1) := by omega
                rw [h1, h2]

theorem getResultsAux_ok (env : CollectEnv) (sensorID : String)
    (now off : Int) :
    ∀ (n mid i : Nat) (rows : List (List ℚ)),
    (getResultsAux env sensorID now off mid i n).2 = .ok rows →
    rows.length = n ∧ ∀ row ∈ rows, row.length = hoursInADay := by
  intro n
  induction n with
  | zero =>
    intro mid i rows h
    simp only [getResultsAux] at h
    injection h with h
    subst h
    simp
  | succ n ih =>
    intro mid i rows
    simp only [getResultsAux]
    split
    · intro h
      simp at h
    · split
      · intro h
        simp at h
      · split
        · intro h
          simp at h
        · split
          · intro h
            simp at h
          · split
            · intro h
              simp at h
            · rename_i row heq
              cases hr : (getResultsAux env sensorID now off (mid + 1) (i + 1) n).2 with
              | ok rows2 =>
                simp only [hr]
                intro h
                simp only [GoResult.ok.injEq] at h
                subst h
                have hrec := ih (mid + 1) (i + 1) rows2 hr
                refine ⟨by simp [hrec.1], ?_⟩
                intro r hmem
                rcases List.mem_cons.mp hmem with h1 | h2
                · subst h1
                  exact extractChanges_length heq
                · exact hrec.2 r h2
              | goError e =>
                simp only [hr]
                intro h
                simp at h
              | panicked =>
                simp only [hr]
                intro h
                simp at h

theorem getResultsAux_err (env : CollectEnv) (sensorID : String)
    (now off : Int) :
    ∀ (i n mid i0 : Nat), i < n →
    (∀ j, j < i → env.writeResults (i0 + j) = .ok () ∧
      ∃ d, env.responses (i0 + j) = .ok d ∧ d.success = true ∧
        hoursInADay ≤ (d.result sensorID).length) →
    env.writeResults (i0 + i) = .ok () →
    (∃ d, env.responses (i0 + i) = .ok d ∧ d.success = true ∧
      (d.result sensorID).length = 0) →
    (getResultsAux env sensorID now off mid i0 n).2 =
      .goError ("no results returned - is your sensorID \x27" ++ sensorID ++
        "\x27 correct?") := by
  intro i
  induction i with
  | zero =>
    intro n mid i0 hn hgood hw hbad
    obtain ⟨d, hresp, hsucc, hlen⟩ := hbad
    cases n with
    | zero => omega
    | succ n =>
      simp only [Nat.add_zero] at hw hresp
      simp only [getResultsAux, hw, hresp, hsucc]
      rw [if_neg (by simp), if_pos hlen]
  | succ i ih =>
    intro n mid i0 hn hgood hw hbad
    cases n with
    | zero => omega
    | succ n =>
      have hg0 := hgood 0 (Nat.succ_pos i)
      simp only [Nat.add_zero] at hg0
      obtain ⟨hw0, d0, hresp0, hsucc0, hlen0⟩ := hg0
      have hne0 : ¬ (d0.result sensorID).length = 0 := by
        have h24 : (0 : Nat) < hoursInADay := by norm_num [hoursInADay]
        omega
      have hgood1 : ∀ j, j < i → env.writeResults (i0 + 1 + j) = .ok () ∧
          ∃ d, env.responses (i0 + 1 + j) = .ok d ∧ d.success = true ∧
            hoursInADay ≤ (d.result sensorID).length := by
        intro j hj
        have h := hgood (j + 1) (by omega)
        rwa [show i0 + (j + 1) = i0 + 1 + j by omega] at h
      have hw1 : env.writeResults (i0 + 1 + i) = .ok () := by
        rwa [show i0 + (i + 1) = i0 + 1 + i by omega] at hw
      have hbad1 : ∃ d, env.responses (i0 + 1 + i) = .ok d ∧
          d.success = true ∧ (d.result sensorID).length = 0 := by
        rwa [show i0 + (i + 1) = i0 + 1 + i by omega] at hbad
      have hrec := ih n (mid + 1) (i0 + 1) (by omega) hgood1 hw1 hbad1
      simp only [getResultsAux, hw0, hresp0, hsucc0]
      rw [if_neg (by simp), if_neg hne0]
      simp only [extractChanges, if_pos hlen0]
      simp only [hrec]

theorem Connect_messageID (c : Client) (env : ConnectEnv) :
    (Connect c env).1.messageID = 1 := by
  by_cases hu : env.urlString = ""
  · simp [Connect, hu]
  · cases hp : env.parseResult with
    | error e => simp [Connect, hu, hp]
    | ok u =>
      cases hd : env.dialResult (rewriteDialURL u) with
      | error e => simp [Connect, hu, hp, hd]
      | ok conn =>
        cases hi : env.initMsgResult conn with
        | error e => simp [Connect, hu, hp, hd, hi]
        | ok a =>
          cases hw : env.authWriteResult conn with
          | error e => simp [Connect, hu, hp, hd, hi, hw]
          | ok b =>
            cases hr : env.authRespResult conn with
            | error e => simp [Connect, hu, hp, hd, hi, hw, hr]
            | ok resp =>
              by_cases ha : resp.msgType = "auth_ok" <;>
                simp [Connect, hu, hp, hd, hi, hw, hr, ha]

theorem Connect_conn_of_error (c : Client) (env : ConnectEnv) (e : String) :
    (Connect c env).2.2 = .error e → (Connect c env).1.conn = c.conn := by
  intro h
  by_cases hu : env.urlString = ""
  · simp [Connect, hu]
  · cases hp : env.parseResult with
    | error e2 => simp [Connect, hu, hp]
    | ok u =>
      cases hd : env.dialResult (rewriteDialURL u) with
      | error e2 => simp [Connect, hu, hp, hd]
      | ok conn =>
        cases hi : env.initMsgResult conn with
        | error e2 => simp [Connect, hu, hp, hd, hi]
        | ok a =>
          cases hw : env.authWriteResult conn with
          | error e2 => simp [Connect, hu, hp, hd, hi, hw]
          | ok b =>
            cases hr : env.authRespResult conn with
            | error e2 => simp [Connect, hu, hp, hd, hi, hw, hr]
            | ok resp =>
              by_cases ha : resp.msgType = "auth_ok"
              · exfalso
                simp [Connect, hu, hp, hd, hi, hw, hr, ha] at h
              · simp [Connect, hu, hp, hd, hi, hw, hr, ha]

theorem getResultsAux_ids_pairwise (env : CollectEnv) (sensorID : String)
    (now off : Int) :
    ∀ (n mid i : Nat),
    List.Pairwise (· < ·)
      (((getResultsAux env sensorID now off mid i n).1).map StatsRequest.id) := by
  intro n
  induction n with
  | zero => intro mid i; simp [getResultsAux]
  | succ n ih =>
    intro mid i
    simp only [getResultsAux]
    split
    · simp
    · split
      · simp
      · split
        · simp
        · split
          · simp
          · split
            · simp
            · dsimp only
              rw [List.map_cons]
              refine List.Pairwise.cons ?_ (ih (mid + 1) (i + 1))
              intro b hb
              obtain ⟨r, hr, hrb⟩ := List.mem_map.mp hb
              obtain ⟨j, hj⟩ := List.get?_of_mem hr
              obtain ⟨hjl, _⟩ := List.get?_eq_some.mp hj
              have ht := getResultsAux_trace env sensorID now off n
                (mid + 1) (i + 1) j hjl
              rw [hj] at ht
              simp only [Option.some.injEq] at ht
              subst ht
              dsimp only at hrb ⊢
              omega

/-- C1: for every successful collection run, the averages vector computed by
`ComputePowerStats` has exactly 24 entries, and for every hour index `h` in
`[0, 24)` its entry equals the sum of column `h` across all matrix rows
divided by the configured day count `Config.Days` (not by the number of
rows actually collected). -/
theorem c1_averages (days : Int) (mid0 : Nat) (sensorID : String)
    (env : CollectEnv) (now off : Int) (rows : List (List ℚ))
    (hok : (getResults days mid0 sensorID env now off).2 = .ok rows) :
    (computeAverages rows days).length = hoursInADay ∧
    ∀ h, h < hoursInADay →
      (computeAverages rows days).getD h 0 =
        (rows.map (fun row => row.getD h 0)).sum / (days : ℚ) := by
  refine ⟨by simp [computeAverages], ?_⟩
  intro h hh
  simp [computeAverages, List.getD, List.getElem?_map, List.getElem?_range hh]

/-- C1 witness: a run with one configured day and an all-ones response. -/
theorem c1_averages_witness :
    (computeAverages [List.replicate 24 (1 : ℚ)] 1).length = hoursInADay ∧
    (computeAverages [List.replicate 24 (1 : ℚ)] 1).getD 3 0 =
      ([List.replicate 24 (1 : ℚ)].map (fun row => row.getD 3 0)).sum /
        ((1 : Int) : ℚ) := by
  have h := c1_averages 1 1 "s" goodEnv 0 0 [List.replicate 24 (1 : ℚ)]
    (by decide)
  exact ⟨h.1, h.2 3 (by norm_num [hoursInADay])⟩

/-- C2: for every configured day count `D ≥ 1`, when collection succeeds the
matrix returned by `getResults` has exactly `D` rows and every row has
exactly 24 entries. -/
theorem c2_matrix_shape (days : Int) (mid0 : Nat) (sensorID : String)
    (env : CollectEnv) (now off : Int) (rows : List (List ℚ))
    (hd : 1 ≤ days)
    (hok : (getResults days mid0 sensorID env now off).2 = .ok rows) :
    (rows.length : Int) = days ∧ ∀ row ∈ rows, row.length = hoursInADay := by
  unfold getResults at hok
  rw [if_neg (by omega)] at hok
  by_cases hs : sensorID = ""
  · rw [if_pos hs] at hok
    simp at hok
  · rw [if_neg hs] at hok
    have h := getResultsAux_ok env sensorID now off days.toNat mid0 0 rows hok
    refine ⟨?_, h.2⟩
    rw [h.1]
    exact Int.toNat_of_nonneg (by omega)

/-- C2 witness: one configured day, one full row of 24 entries. -/
theorem c2_matrix_shape_witness :
    (([List.replicate 24 (1 : ℚ)].length : Int) = 1) ∧
    ∀ row ∈ [List.replicate 24 (1 : ℚ)], row.length = hoursInADay :=
  c2_matrix_shape 1 1 "s" goodEnv 0 0 [List.replicate 24 (1 : ℚ)]
    (by norm_num) (by decide)

/-- C3 counterexample: the claim that the emitted timestamp strings are
UTC-normalized (the string with its trailing `Z` denotes the instant
converted to UTC) fails in a zone at offset +3600 s: the first request of a
concrete run carries a start string that differs from the UTC rendering of
the start instant, because Go's layout `"2006-01-02T15:04:05.000Z"` renders
local wall-clock fields with a literal `Z`. -/
theorem c3_counterexample :
    (((getResults 1 1 "s" goodEnv 0 3600).1).get? 0).map StatsRequest.startTime ≠
      some (specUTCISO8601ms (truncDay (0 - ((0 : Int) + 1) * dayNs))) := by
  decide

/-- C3 amended: for every row index `k` for which a request is built, the
request carries id `mid0 + k + 1`, start string
`goFormatZ off (truncDay (now - (k+1)*24h))` and end string
`goFormatZ off (truncDay now)` — i.e. the instants are the 24h-truncations
of `now - (k+1)*24h` and `now`, formatted with millisecond precision from
the local wall-clock fields with a literal `Z` appended; the emitted string
coincides with the UTC-normalized ISO 8601 rendering exactly when the local
zone offset is zero. -/
theorem c3_amended (days : Int) (mid0 : Nat) (sensorID : String)
    (env : CollectEnv) (now off : Int) (k : Nat)
    (hk : k < ((getResults days mid0 sensorID env now off).1).length) :
    ((getResults days mid0 sensorID env now off).1).get? k =
      some
      { id := mid0 + k + 1
        reqType := "recorder/statistics_during_period"
        startTime := goFormatZ off (truncDay (now - ((k : Int) + 1) * dayNs))
        endTime := goFormatZ off (truncDay now)
        statisticIds := [sensorID]
        period := "hour"
        reqTypes := ["change"]
        unitsEnergy := "kWh" } ∧
    (off = 0 →
      goFormatZ off (truncDay (now - ((k : Int) + 1) * dayNs)) =
        specUTCISO8601ms (truncDay (now - ((k : Int) + 1) * dayNs)) ∧
      goFormatZ off (truncDay now) = specUTCISO8601ms (truncDay now)) := by
  constructor
  · unfold getResults at hk ⊢
    by_cases hd : days < 0
    · rw [if_pos hd] at hk
      simp at hk
    · rw [if_neg hd] at hk ⊢
      by_cases hs : sensorID = ""
      · rw [if_pos hs] at hk
        simp at hk
      · rw [if_neg hs] at hk ⊢
        have h := getResultsAux_trace env sensorID now off days.toNat mid0 0 k hk
        rw [h]
        norm_num
  · intro h0
    subst h0
    exact ⟨goFormatZ_zero _, goFormatZ_zero _⟩

/-- C3 amended witness: a concrete run at UTC offset 0. -/
theorem c3_amended_witness :
    ((getResults 1 1 "s" goodEnv 0 0).1).get? 0 =
      some
      { id := 1 + 0 + 1
        reqType := "recorder/statistics_during_period"
        startTime := goFormatZ 0 (truncDay (0 - (((0 : Nat) : Int) + 1) * dayNs))
        endTime := goFormatZ 0 (truncDay 0)
        statisticIds := ["s"]
        period := "hour"
        reqTypes := ["change"]
        unitsEnergy := "kWh" } ∧
    (goFormatZ 0 (truncDay (0 - (((0 : Nat) : Int) + 1) * dayNs)) =
        specUTCISO8601ms (truncDay (0 - (((0 : Nat) : Int) + 1) * dayNs)) ∧
      goFormatZ 0 (truncDay 0) = specUTCISO8601ms (truncDay 0)) := by
  have h := c3_amended 1 1 "s" goodEnv 0 0 0 (by decide)
  exact ⟨h.1, h.2 rfl⟩

/-- C4 counterexample: the claim that `Connect` discards any query the user
supplied is false — only the path is overwritten; the query string of the
parsed URL survives into the dial URL. -/
theorem c4_counterexample :
    (rewriteDialURL
      { scheme := "http", host := "example.com", path := "/p",
        rawQuery := "a=1" }).rawQuery ≠ "" := by
  decide

/-- C4 amended: for every parseable configured URL, `Connect` dials the URL
obtained by rewriting scheme `http`→`ws` and `https`→`wss` (any other scheme
passes through unchanged) and overwriting the path with the fixed
`/api/websocket`, discarding the user path but *preserving* the user query
and host. -/
theorem c4_amended (c : Client) (env : ConnectEnv) (u : URL)
    (hne : env.urlString ≠ "") (hp : env.parseResult = .ok u) :
    ((Connect c env).2.1).head? = some (.dialed (rewriteDialURL u)) ∧
    (u.scheme = "http" → (rewriteDialURL u).scheme = "ws") ∧
    (u.scheme = "https" → (rewriteDialURL u).scheme = "wss") ∧
    (u.scheme ≠ "http" → u.scheme ≠ "https" →
      (rewriteDialURL u).scheme = u.scheme) ∧
    (rewriteDialURL u).path = "/api/websocket" ∧
    (rewriteDialURL u).host = u.host ∧
    (rewriteDialURL u).rawQuery = u.rawQuery := by
  refine ⟨?_, ?_, ?_, ?_, rfl, rfl, rfl⟩
  · cases hd : env.dialResult (rewriteDialURL u) with
    | error e => simp [Connect, hne, hp, hd]
    | ok conn =>
      cases hi : env.initMsgResult conn with
      | error e => simp [Connect, hne, hp, hd, hi]
      | ok a =>
        cases hw : env.authWriteResult conn with
        | error e => simp [Connect, hne, hp, hd, hi, hw]
        | ok b =>
          cases hr : env.authRespResult conn with
          | error e => simp [Connect, hne, hp, hd, hi, hw, hr]
          | ok resp =>
            by_cases ha : resp.msgType = "auth_ok" <;>
              simp [Connect, hne, hp, hd, hi, hw, hr, ha]
  · intro h
    simp [rewriteDialURL, h]
  · intro h
    simp [rewriteDialURL, h]
  · intro h1 h2
    simp [rewriteDialURL, h1, h2]

/-- C4 amended witness: a concrete http URL with a path and query. -/
theorem c4_amended_witness :
    ((Connect clientFixture okAuthEnv).2.1).head? =
      some (.dialed (rewriteDialURL httpURL)) ∧
    (rewriteDialURL httpURL).scheme = "ws" ∧
    (rewriteDialURL httpURL).path = "/api/websocket" ∧
    (rewriteDialURL httpURL).rawQuery = httpURL.rawQuery := by
  have h := c4_amended clientFixture okAuthEnv httpURL (by decide) rfl
  exact ⟨h.1, h.2.1 rfl, h.2.2.2.2.1, h.2.2.2.2.2.2⟩

/-- C5: the code does *not* reject a bucket sequence shorter than 24
entries — after accepting a success response whose non-empty bucket list
has only 5 entries, the extraction loop reads `buckets[5]` out of range and
the run panics instead of returning a data-integrity error. -/
theorem c5_short_buckets_panic :
    (getResults 1 1 "s" shortEnv 0 0).2 = GoResult.panicked := by
  rfl

/-- C6: within one session the message-id counter is 1 after a successful
`Connect` and is incremented before each outbound statistics request, so
the k-th request (0-based) carries id `k + 2` (the first being 2) and the
sequence of sent ids is strictly increasing over the collection loop. -/
theorem c6_message_ids (c : Client) (cenv : ConnectEnv) (days : Int)
    (sensorID : String) (env : CollectEnv) (now off : Int) (k : Nat)
    (hok : (Connect c cenv).2.2 = .ok ())
    (hk : k < ((getResults days (Connect c cenv).1.messageID sensorID env now
      off).1).length) :
    (Connect c cenv).1.messageID = 1 ∧
    (((getResults days (Connect c cenv).1.messageID sensorID env now
      off).1).get? k).map StatsRequest.id = some (k + 2) ∧
    List.Pairwise (· < ·)
      (((getResults days (Connect c cenv).1.messageID sensorID env now
        off).1).map StatsRequest.id) := by
  have hmid := Connect_messageID c cenv
  rw [hmid] at hk ⊢
  refine ⟨rfl, ?_, ?_⟩
  · unfold getResults at hk ⊢
    by_cases hd : days < 0
    · rw [if_pos hd] at hk
      simp at hk
    · rw [if_neg hd] at hk ⊢
      by_cases hs : sensorID = ""
      · rw [if_pos hs] at hk
        simp at hk
      · rw [if_neg hs] at hk ⊢
        have h := getResultsAux_trace env sensorID now off days.toNat 1 0 k hk
        rw [h]
        simp only [Option.map_some', Option.some.injEq]
        omega
  · unfold getResults
    by_cases hd : days < 0
    · rw [if_pos hd]
      simp
    · rw [if_neg hd]
      by_cases hs : sensorID = ""
      · rw [if_pos hs]
        simp
      · rw [if_neg hs]
        exact getResultsAux_ids_pairwise env sensorID now off days.toNat 1 0

/-- C6 witness: a concrete successful connect followed by a one-day run. -/
theorem c6_message_ids_witness :
    (Connect clientFixture okAuthEnv).1.messageID = 1 ∧
    (((getResults 1 (Connect clientFixture okAuthEnv).1.messageID "s" goodEnv
      0 0).1).get? 0).map StatsRequest.id = some (0 + 2) ∧
    List.Pairwise (· < ·)
      (((getResults 1 (Connect clientFixture okAuthEnv).1.messageID "s"
        goodEnv 0 0).1).map StatsRequest.id) :=
  c6_message_ids clientFixture okAuthEnv 1 "s" goodEnv 0 0 0 rfl (by decide)

/-- C7: with an empty configured URL, `Connect` returns a
"url is required" error and performs no network I/O at all. -/
theorem c7_empty_url (c : Client) (env : ConnectEnv)
    (h : env.urlString = "") :
    (Connect c env).2.2 = .error "url is required" ∧
    (Connect c env).2.1 = [] := by
  constructor <;> simp [Connect, h]

/-- C7 witness: the empty-url environment. -/
theorem c7_empty_url_witness :
    (Connect clientFixture emptyURLEnv).2.2 = .error "url is required" ∧
    (Connect clientFixture emptyURLEnv).2.1 = [] :=
  c7_empty_url clientFixture emptyURLEnv rfl

/-- C8: when the message read after sending the auth message has any type
tag other than `auth_ok`, `Connect` returns an authentication-failed error
embedding the server-supplied message field. -/
theorem c8_auth_failed (c : Client) (env : ConnectEnv) (u : URL)
    (conn : Conn) (resp : AuthResp)
    (hne : env.urlString ≠ "") (hp : env.parseResult = .ok u)
    (hd : env.dialResult (rewriteDialURL u) = .ok conn)
    (hi : env.initMsgResult conn = .ok ())
    (hw : env.authWriteResult conn = .ok ())
    (hr : env.authRespResult conn = .ok resp)
    (hbad : resp.msgType ≠ "auth_ok") :
    (Connect c env).2.2 =
      .error ("authentication failed: " ++ resp.message) := by
  simp [Connect, hne, hp, hd, hi, hw, hr, hbad]

/-- C8 witness: a handshake whose auth response has type `auth_invalid`. -/
theorem c8_auth_failed_witness :
    (Connect clientFixture badAuthEnv).2.2 =
      .error ("authentication failed: " ++
        (⟨"auth_invalid", "bad token"⟩ : AuthResp).message) :=
  c8_auth_failed clientFixture badAuthEnv httpURL ⟨7⟩
    ⟨"auth_invalid", "bad token"⟩ (by decide) rfl rfl rfl rfl rfl (by decide)

/-- C9: when a statistics response reports success but carries zero buckets
for the requested sensor id, the whole collection aborts with an error whose
text names that sensor id, and no matrix is returned. -/
theorem c9_empty_buckets (days : Int) (mid0 : Nat) (sensorID : String)
    (env : CollectEnv) (now off : Int) (i : Nat)
    (hs : sensorID ≠ "")
    (hi : (i : Int) < days)
    (hgood : ∀ j, j < i → env.writeResults j = .ok () ∧
      ∃ d, env.responses j = .ok d ∧ d.success = true ∧
        hoursInADay ≤ (d.result sensorID).length)
    (hw : env.writeResults i = .ok ())
    (hbad : ∃ d, env.responses i = .ok d ∧ d.success = true ∧
      (d.result sensorID).length = 0) :
    (getResults days mid0 sensorID env now off).2 =
      .goError ("no results returned - is your sensorID \x27" ++ sensorID ++
        "\x27 correct?") := by
  unfold getResults
  rw [if_neg (by omega), if_neg hs]
  refine getResultsAux_err env sensorID now off i days.toNat mid0 0 ?_ ?_ ?_ ?_
  · omega
  · intro j hj
    simpa using hgood j hj
  · simpa using hw
  · simpa using hbad

/-- C9 witness: a one-day run whose first response succeeds with zero
buckets. -/
theorem c9_empty_buckets_witness :
    (getResults 1 1 "s" emptyEnv 0 0).2 =
      .goError ("no results returned - is your sensorID \x27" ++ "s" ++
        "\x27 correct?") :=
  c9_empty_buckets 1 1 "s" emptyEnv 0 0 0 (by decide) (by norm_num)
    (by intro j hj; exact absurd hj (Nat.not_lt_zero j)) rfl
    ⟨emptyResp, rfl, rfl, rfl⟩

/-- C10: `Connect` sets the message-id counter to 1 before any validation
or I/O, so after every failed `Connect` (the empty-URL case included) the
counter equals 1 while the `Conn` field is left unchanged. -/
theorem c10_frame (c : Client) (env : ConnectEnv) (e : String)
    (h : (Connect c env).2.2 = .error e) :
    (Connect c env).1.messageID = 1 ∧ (Connect c env).1.conn = c.conn :=
  ⟨Connect_messageID c env, Connect_conn_of_error c env e h⟩

/-- C10 witness: the empty-URL failure with a client whose counter starts
at a junk value. -/
theorem c10_frame_witness :
    (Connect clientFixture emptyURLEnv).1.messageID = 1 ∧
    (Connect clientFixture emptyURLEnv).1.conn = clientFixture.conn :=
  c10_frame clientFixture emptyURLEnv "url is required" rfl
